import Mathlib

/-!
Verification of the Image-Assestent backend (src/backend/app.py).

The repository is a single-file Flask application: an HTTP handler that
validates an image upload, runs an OCR engine on the decoded image,
applies a keyword/punctuation heuristic to decide whether the extracted
text is a question, and (if so) asks a chat-completion API for an answer.

The shallow embedding below models the pure data flow of that file.
External effects — the OCR engine call (reader.readtext), the image
decode (Image.open / np.array), the chat-completion API call, the
upload-directory creation, and the environment lookup of the API key —
are passed in as explicit `Except`/`Option` values: `Except.error e`
stands for the corresponding Python call raising an exception whose
message is e, and `Except.ok v` for it returning v normally.
-/

deriving instance DecidableEq for Except

namespace ImageAssestent

/-- One OCR detection, modelling an element of the list returned by
`reader.readtext(image_array)`: a (bounding-region, recognized-text,
confidence) triple.  The Python code only ever consumes index 1
(`result[1]`, the text). -/
structure OCRTriple where
  bbox : List (Int × Int)
  text : String
  conf : Rat
deriving DecidableEq

/-- The allow-list of upload extensions from `allowed_file` in the
source: png, jpg, jpeg, gif, bmp, webp. -/
def ALLOWED_EXTENSIONS : List String := ["png", "jpg", "jpeg", "gif", "bmp", "webp"]

/-- Python str.lower() (ASCII range, the only case the allow-list and
keyword comparisons exercise), character by character. -/
def pyLower (s : String) : String :=
  ⟨s.toList.map Char.toLower⟩

/-- Python `s.rsplit(".", 1)[1]`: the substring after the last dot.
(Splitting at every dot, the last piece is exactly what follows the
final dot; when there is no dot the caller has already
short-circuited.) -/
def afterLastDot (s : String) : String :=
  ((s.toList.splitOn '.').getLastD []).asString

/-- `FlaskQuestionAnswerApp.allowed_file`, whose body is
`"." in filename and filename.rsplit(".", 1)[1].lower() in ALLOWED_EXTENSIONS`. -/
def allowed_file (filename : String) : Bool :=
  filename.toList.contains '.' && ALLOWED_EXTENSIONS.contains (pyLower (afterLastDot filename))

/-- The question keyword list of `extract_question` in the source:
what, who, where, when, why, how, which. -/
def question_keywords : List String := ["what", "who", "where", "when", "why", "how", "which"]

/-- Python s.split() (no separator argument): split on whitespace,
discarding empty pieces, so runs of whitespace count as one separator,
leading/trailing whitespace produces no tokens and splitting the empty
string gives the empty token list. -/
def pySplit (s : String) : List String :=
  ((s.toList.splitOnP Char.isWhitespace).filter (fun t => t ≠ [])).map List.asString

/-- The classification step of `extract_question`:
`any(keyword in lower_text.split()[:3] for keyword in question_keywords)
 or "?" in full_text`. -/
def isLikelyQuestion (full_text : String) : Bool :=
  let lower_text := pyLower full_text
  question_keywords.any (fun kw => ((pySplit lower_text).take 3).contains kw)
    || full_text.toList.contains '?'

/-- The return step of `extract_question`:
`return full_text if is_likely_question else ""`. -/
def questionHeuristic (full_text : String) : String :=
  if isLikelyQuestion full_text then full_text else ""

/-- The text-concatenation step of `extract_question`:
`full_text = "\n".join([result[1] for result in results])`. -/
def fullText (results : List OCRTriple) : String :=
  String.intercalate "\n" (results.map OCRTriple.text)

/-- `QuestionOCRAnalyzer.extract_question`.  The whole body sits in a
try whose `except Exception` logs and returns the empty string; the
only fallible step is the OCR engine call, passed here as an `Except`
value (`Except.error e` meaning `reader.readtext` raised e). -/
def extract_question (readtext : Except String (List OCRTriple)) : String :=
  match readtext with
  | Except.error _ => ""
  | Except.ok results => questionHeuristic (fullText results)

/-- `QuestionOCRAnalyzer.answer_question`.  The chat-completion call
(and the subsequent indexing into its response) is passed as an
`Except` value; on success the completion text is returned, and any
exception e is caught and converted to the apology string built by the
source from the text "Sorry, I couldn\x27t generate an answer. Error: "
followed by str(e). -/
def answer_question (api : Except String String) : String :=
  match api with
  | Except.ok content => content
  | Except.error e => "Sorry, I couldn\x27t generate an answer. Error: " ++ e

/-- An HTTP response produced by the handler: a status code and a flat
JSON object with string values (every body the handler builds has this
shape). -/
structure HttpResponse where
  status : Nat
  body : List (String × String)
deriving DecidableEq

/-- One incoming request to `process_question_image`, with the outcomes
of the external calls it would make given as data:
* `hasImageField` — whether the multipart field named image is in
  `request.files`;
* `filename` — `image_file.filename`;
* `decodeResult` — outcome of `Image.open(image_file.stream)` /
  `np.array(...)` (an error here is NOT caught locally, so it reaches
  the top-level except of the handler);
* `ocrResult` — outcome of `reader.readtext` inside `extract_question`;
* `llmResult` — outcome of the chat-completion call inside
  `answer_question`. -/
structure RequestModel where
  hasImageField : Bool
  filename : String
  decodeResult : Except String Unit
  ocrResult : Except String (List OCRTriple)
  llmResult : Except String String
deriving DecidableEq

/-- `FlaskQuestionAnswerApp.process_question_image`, the handler of
POST /answer-question.  The whole body sits in a try whose
`except Exception` returns status 500 with the generic
internal-server-error body; in this model the only uncaught exception
source is the image decode. -/
def process_question_image (req : RequestModel) : HttpResponse :=
  if req.hasImageField = false then
    ⟨400, [("error", "No image file provided")]⟩
  else if req.filename = "" then
    ⟨400, [("error", "No selected file")]⟩
  else if allowed_file req.filename = false then
    ⟨400, [("error", "Invalid file type")]⟩
  else
    match req.decodeResult with
    | Except.error _ => ⟨500, [("error", "Internal server error")]⟩
    | Except.ok _ =>
      let extracted_question := extract_question req.ocrResult
      if extracted_question = "" then
        ⟨400, [("error", "No clear question found in the image"), ("extracted_text", "")]⟩
      else
        ⟨200, [("extracted_question", extracted_question),
               ("answer", answer_question req.llmResult)]⟩

/-- `QuestionOCRAnalyzer.__init__`: construct the EasyOCR reader, then
set `openai.api_key` from `os.getenv("OPENAI_API_KEY")` and raise
ValueError when the key is falsy (absent, i.e. `none`, or the empty
string).  The local except logs and re-raises, so every failure
propagates unchanged. -/
def analyzerInit (readerInit : Except String Unit) (apiKey : Option String) :
    Except String Unit :=
  match readerInit with
  | Except.error e => Except.error e
  | Except.ok _ =>
    match apiKey with
    | none => Except.error "OpenAI API key is required"
    | some k =>
      if k = "" then Except.error "OpenAI API key is required" else Except.ok ()

/-- `FlaskQuestionAnswerApp.__init__`: create the upload directory
(`os.makedirs`, fallible), then construct the `QuestionOCRAnalyzer`;
any exception propagates to the caller. -/
def flaskAppInit (mkdirResult readerInit : Except String Unit)
    (apiKey : Option String) : Except String Unit :=
  match mkdirResult with
  | Except.error e => Except.error e
  | Except.ok _ => analyzerInit readerInit apiKey

/-- Observable outcome of process startup: either the app reaches
`question_app.run()` and serves HTTP traffic, or startup raised, the
exception was caught in `main` and logged via `logger.critical`, and
`run()` was never called. -/
inductive StartupOutcome where
  | served : StartupOutcome
  | failedLoggedCritical : String → StartupOutcome
deriving DecidableEq

/-- The `main()` entry point: build the `FlaskQuestionAnswerApp` and
call `run()`; any startup exception is caught, logged critically with
the prefix "Application startup failed: ", and the function returns
without serving. -/
def main (mkdirResult readerInit : Except String Unit)
    (apiKey : Option String) : StartupOutcome :=
  match flaskAppInit mkdirResult readerInit apiKey with
  | Except.error e => StartupOutcome.failedLoggedCritical ("Application startup failed: " ++ e)
  | Except.ok _ => StartupOutcome.served

/-- Spec-side reading of the question classification (spec section
4.3): some token among the first three whitespace-delimited tokens of
the lower-cased text equals a keyword, or the original-case text
contains a question mark anywhere. -/
def IsQuestionSpec (t : String) : Prop :=
  (∃ tok, tok ∈ (pySplit (pyLower t)).take 3 ∧ tok ∈ question_keywords)
    ∨ '?' ∈ t.toList

instance (t : String) : Decidable (IsQuestionSpec t) := by
  unfold IsQuestionSpec; infer_instance

/-- Spec-side reading of the OCR text concatenation (spec section 4.2):
the text fields concatenated with newline separators into one string in
the order the engine returned. -/
def joinTextsSpec : List String → String
  | [] => ""
  | [t] => t
  | t :: rest => t ++ "\n" ++ joinTextsSpec rest

lemma isLikelyQuestion_iff (t : String) : isLikelyQuestion t = true ↔ IsQuestionSpec t := by
  unfold isLikelyQuestion IsQuestionSpec
  simp only [Bool.or_eq_true, List.any_eq_true, List.contains, List.elem_eq_mem,
    decide_eq_true_iff]
  constructor
  · rintro (⟨kw, hkw, htok⟩ | h)
    · exact Or.inl ⟨kw, htok, hkw⟩
    · exact Or.inr h
  · rintro (⟨tok, htok, hkw⟩ | h)
    · exact Or.inl ⟨tok, hkw, htok⟩
    · exact Or.inr h

/-- C1 (counterexample): a request that passes upload validation and
decodes, but whose OCR engine call raises, is answered 400 with the
no-clear-question body — not 500 Internal server error as claimed. -/
theorem ocr_exception_not_500 :
    process_question_image
        ⟨true, "q.png", Except.ok (), Except.error "ocr engine failure", Except.ok "ans"⟩
        = ⟨400, [("error", "No clear question found in the image"), ("extracted_text", "")]⟩
    ∧ process_question_image
        ⟨true, "q.png", Except.ok (), Except.error "ocr engine failure", Except.ok "ans"⟩
        ≠ ⟨500, [("error", "Internal server error")]⟩ := by
  decide

/-- C1 (amended): if the OCR engine raises during text recognition on a
validated, decoded request, `extract_question` catches the exception
and returns the empty string, so the handler responds 400 with the
no-clear-question body; the 500 path covers only exceptions raised
outside `extract_question`, such as an image decode failure. -/
theorem ocr_exception_yields_400 (req : RequestModel) (e : String)
    (hf : req.hasImageField = true) (hn : req.filename ≠ "")
    (ha : allowed_file req.filename = true) (hd : req.decodeResult = Except.ok ())
    (hocr : req.ocrResult = Except.error e) :
    process_question_image req
      = ⟨400, [("error", "No clear question found in the image"), ("extracted_text", "")]⟩ := by
  simp [process_question_image, hf, hn, ha, hd, hocr, extract_question]

theorem ocr_exception_yields_400_witness :
    process_question_image ⟨true, "b.jpg", Except.ok (), Except.error "ocr crash", Except.ok "x"⟩
      = ⟨400, [("error", "No clear question found in the image"), ("extracted_text", "")]⟩ :=
  ocr_exception_yields_400 ⟨true, "b.jpg", Except.ok (), Except.error "ocr crash", Except.ok "x"⟩
    "ocr crash" rfl (by decide) (by decide) rfl rfl

/-- C2: the question heuristic classifies a text as a question iff one
of the first three whitespace tokens of the lower-cased text equals a
keyword or the original-case text contains a question mark; a question
is returned verbatim, a non-question yields the empty string, and the
empty input is classified as not a question. -/
theorem questionHeuristic_spec (t : String) :
    (isLikelyQuestion t = true ↔ IsQuestionSpec t)
    ∧ (IsQuestionSpec t → questionHeuristic t = t)
    ∧ (¬ IsQuestionSpec t → questionHeuristic t = "")
    ∧ ¬ IsQuestionSpec "" := by
  refine ⟨isLikelyQuestion_iff t, ?_, ?_, by decide⟩
  · intro h
    unfold questionHeuristic
    rw [if_pos ((isLikelyQuestion_iff t).mpr h)]
  · intro h
    unfold questionHeuristic
    rw [if_neg (fun hb => h ((isLikelyQuestion_iff t).mp hb))]

theorem questionHeuristic_spec_witness :
    IsQuestionSpec "What is this" ∧ questionHeuristic "What is this" = "What is this"
      ∧ ¬ IsQuestionSpec "Hello world" ∧ questionHeuristic "Hello world" = "" :=
  ⟨by decide, (questionHeuristic_spec "What is this").2.1 (by decide),
    by decide, (questionHeuristic_spec "Hello world").2.2.1 (by decide)⟩

/-- C3: upload validation accepts exactly the filenames containing a
dot whose lower-cased final extension is on the allow-list; dotless
names are rejected and matching is case-insensitive (PHOTO.JPG is
accepted). -/
theorem allowed_file_spec (filename : String) :
    (allowed_file filename = true ↔
      ('.' ∈ filename.toList ∧ pyLower (afterLastDot filename) ∈ ALLOWED_EXTENSIONS))
    ∧ ('.' ∉ filename.toList → allowed_file filename = false)
    ∧ allowed_file "PHOTO.JPG" = true := by
  refine ⟨?_, ?_, by decide⟩
  · unfold allowed_file
    simp [List.contains, List.elem_eq_mem]
  · intro h
    unfold allowed_file
    simp [List.contains, List.elem_eq_mem]
    intro hd
    exact absurd hd h

theorem allowed_file_spec_witness :
    '.' ∉ "noext".toList ∧ allowed_file "noext" = false :=
  ⟨by decide, (allowed_file_spec "noext").2.1 (by decide)⟩

/-- C4: when the chat-completion call raises, `answer_question` returns
the apology string as a normal value, and the handler still answers 200
with that string in the answer field. -/
theorem llm_failure_answer (req : RequestModel) (e : String)
    (hf : req.hasImageField = true) (hn : req.filename ≠ "")
    (ha : allowed_file req.filename = true) (hd : req.decodeResult = Except.ok ())
    (hq : extract_question req.ocrResult ≠ "") (hl : req.llmResult = Except.error e) :
    answer_question req.llmResult = "Sorry, I couldn\x27t generate an answer. Error: " ++ e
    ∧ process_question_image req
        = ⟨200, [("extracted_question", extract_question req.ocrResult),
                 ("answer", "Sorry, I couldn\x27t generate an answer. Error: " ++ e)]⟩ := by
  constructor
  · rw [hl]
    rfl
  · simp [process_question_image, hf, hn, ha, hd, hq, hl, answer_question]

theorem llm_failure_answer_witness :
    answer_question (Except.error "timeout")
      = "Sorry, I couldn\x27t generate an answer. Error: timeout" :=
  (llm_failure_answer
    ⟨true, "q.png", Except.ok (), Except.ok [⟨[], "What is this?", 1⟩], Except.error "timeout"⟩
    "timeout" rfl (by decide) (by decide) rfl (by decide) rfl).1

/-- C5: the handler checks the three upload validations in order and
returns the first failure (missing field, then empty filename, then bad
extension); only a request passing all three reaches image decoding,
whose failure is answered by the top-level 500. -/
theorem process_validation_order (req : RequestModel) :
    (req.hasImageField = false →
        process_question_image req = ⟨400, [("error", "No image file provided")]⟩)
    ∧ (req.hasImageField = true → req.filename = "" →
        process_question_image req = ⟨400, [("error", "No selected file")]⟩)
    ∧ (req.hasImageField = true → req.filename ≠ "" → allowed_file req.filename = false →
        process_question_image req = ⟨400, [("error", "Invalid file type")]⟩)
    ∧ (req.hasImageField = true → req.filename ≠ "" → allowed_file req.filename = true →
        ∀ e, req.decodeResult = Except.error e →
          process_question_image req = ⟨500, [("error", "Internal server error")]⟩) := by
  refine ⟨?_, ?_, ?_, ?_⟩
  · intro h1
    simp [process_question_image, h1]
  · intro h1 h2
    simp [process_question_image, h1, h2]
  · intro h1 h2 h3
    simp [process_question_image, h1, h2, h3]
  · intro h1 h2 h3 e he
    simp [process_question_image, h1, h2, h3, he]

theorem process_validation_order_witness :
    process_question_image ⟨false, "x.png", Except.ok (), Except.ok [], Except.ok ""⟩
        = ⟨400, [("error", "No image file provided")]⟩
    ∧ process_question_image ⟨true, "", Except.ok (), Except.ok [], Except.ok ""⟩
        = ⟨400, [("error", "No selected file")]⟩
    ∧ process_question_image ⟨true, "malware.exe", Except.ok (), Except.ok [], Except.ok ""⟩
        = ⟨400, [("error", "Invalid file type")]⟩
    ∧ process_question_image ⟨true, "q.png", Except.error "decode fail", Except.ok [], Except.ok ""⟩
        = ⟨500, [("error", "Internal server error")]⟩ :=
  ⟨(process_validation_order ⟨false, "x.png", Except.ok (), Except.ok [], Except.ok ""⟩).1 rfl,
   (process_validation_order ⟨true, "", Except.ok (), Except.ok [], Except.ok ""⟩).2.1 rfl rfl,
   (process_validation_order ⟨true, "malware.exe", Except.ok (), Except.ok [], Except.ok ""⟩).2.2.1
      rfl (by decide) (by decide),
   (process_validation_order ⟨true, "q.png", Except.error "decode fail", Except.ok [], Except.ok ""⟩).2.2.2
      rfl (by decide) (by decide) "decode fail" rfl⟩

/-- C6: when the heuristic finds no question on a validated, decoded
request, the handler answers 400 with exactly the no-clear-question
body, and the response is independent of the answer adapter outcome
(the adapter is never consulted). -/
theorem no_question_response (req : RequestModel)
    (hf : req.hasImageField = true) (hn : req.filename ≠ "")
    (ha : allowed_file req.filename = true) (hd : req.decodeResult = Except.ok ())
    (hq : extract_question req.ocrResult = "") :
    process_question_image req
        = ⟨400, [("error", "No clear question found in the image"), ("extracted_text", "")]⟩
    ∧ ∀ llm, process_question_image { req with llmResult := llm }
        = process_question_image req := by
  constructor
  · simp [process_question_image, hf, hn, ha, hd, hq]
  · intro llm
    simp [process_question_image, hf, hn, ha, hd, hq]

theorem no_question_response_witness :
    process_question_image ⟨true, "q.png", Except.ok (), Except.ok [], Except.ok "ans"⟩
      = ⟨400, [("error", "No clear question found in the image"), ("extracted_text", "")]⟩ :=
  (no_question_response ⟨true, "q.png", Except.ok (), Except.ok [], Except.ok "ans"⟩
    rfl (by decide) (by decide) rfl (by decide)).1

lemma joinTextsSpec_cons_cons (a b : String) (bs : List String) :
    joinTextsSpec (a :: b :: bs) = a ++ "\n" ++ joinTextsSpec (b :: bs) := by
  rfl

lemma intercalate_go_spec (l : List String) : ∀ acc : String,
    String.intercalate.go acc "\n" l = joinTextsSpec (acc :: l) := by
  induction l with
  | nil => intro acc; rfl
  | cons a as ih =>
    intro acc
    rw [String.intercalate.go, ih, joinTextsSpec_cons_cons]
    cases as with
    | nil => simp [joinTextsSpec, String.append_assoc]
    | cons b bs => simp [joinTextsSpec_cons_cons, String.append_assoc]

/-- C7: the extracted text equals the text fields of the OCR triples
joined with newline separators, in the order the engine returned,
consuming only the text field of each triple. -/
theorem fullText_spec (results : List OCRTriple) :
    fullText results = joinTextsSpec (results.map OCRTriple.text) := by
  unfold fullText
  cases h : results.map OCRTriple.text with
  | nil => rfl
  | cons a as =>
    rw [String.intercalate]
    exact intercalate_go_spec as a

/-- C8: with the API key absent or empty, analyzer construction raises,
`main` catches and logs the failure critically, and the server is never
run. -/
theorem missing_api_key_no_serve (mkdirResult readerInit : Except String Unit)
    (apiKey : Option String) (hkey : apiKey = none ∨ apiKey = some "") :
    (∃ e, analyzerInit readerInit apiKey = Except.error e)
    ∧ main mkdirResult readerInit apiKey ≠ StartupOutcome.served
    ∧ ∃ msg, main mkdirResult readerInit apiKey
        = StartupOutcome.failedLoggedCritical msg := by
  obtain hk | hk := hkey <;> subst hk <;>
    cases readerInit <;> cases mkdirResult <;>
      simp [analyzerInit, flaskAppInit, main]

theorem missing_api_key_no_serve_witness :
    ((none : Option String) = none ∨ (none : Option String) = some "")
    ∧ main (Except.ok ()) (Except.ok ()) none ≠ StartupOutcome.served :=
  ⟨Or.inl rfl,
   (missing_api_key_no_serve (Except.ok ()) (Except.ok ()) none (Or.inl rfl)).2.1⟩

/-- C9: `extract_question` is total — an OCR engine exception is caught
and converted to the empty string, and the resulting HTTP response is
identical to the one for an OCR run that returned no text at all. -/
theorem extract_question_total (req : RequestModel) (e : String)
    (h : req.ocrResult = Except.error e) :
    extract_question req.ocrResult = ""
    ∧ process_question_image req
        = process_question_image { req with ocrResult := Except.ok [] } := by
  have h1 : extract_question req.ocrResult = "" := by
    rw [h]
    rfl
  have h2 : extract_question (Except.ok ([] : List OCRTriple)) = "" := by decide
  refine ⟨h1, ?_⟩
  simp [process_question_image, h1, h2]

theorem extract_question_total_witness :
    extract_question (Except.error "ocr crash") = "" :=
  (extract_question_total ⟨true, "q.png", Except.ok (), Except.error "ocr crash", Except.ok "a"⟩
    "ocr crash" rfl).1

/-- C10: for every allowed extension e, the filename consisting of just
a dot followed by e (empty base name) passes upload validation. -/
theorem dotfile_accepted : ∀ e ∈ ALLOWED_EXTENSIONS, allowed_file ("." ++ e) = true := by
  decide

theorem dotfile_accepted_witness :
    "png" ∈ ALLOWED_EXTENSIONS ∧ allowed_file ".png" = true :=
  ⟨by decide, dotfile_accepted "png" (by decide)⟩

end ImageAssestent
